import Mathlib

/-!
Shallow embedding of `streamlit_app.py` from the sentiment-analyzer
repository.  Python strings are modelled as `List Char` (`PyStr`), the
backing file `sentiment_data.txt` as `Option PyStr` (`none` when the file
does not exist, `some content` when it exists with that content), and the
Streamlit error boxes as pure data (`Report`).  The wall clock that
`save_to_file` reads via `datetime.now()` is passed in as an explicit
`timestamp` argument.
-/

namespace SentimentAnalyzer

/-- Python strings, modelled as lists of Unicode characters. -/
abbrev PyStr := List Char

/-- One parsed row of the data file: lines 54-58 of `streamlit_app.py`
build dicts with keys `timestamp`, `sentiment`, `message`; the dataframe
returned by `load_data` is a list of such rows. -/
structure SentimentRecord where
  timestamp : PyStr
  sentiment : PyStr
  message : PyStr
deriving DecidableEq

/-- The whitespace characters stripped by Python `str.strip()`
(CPython's `Py_UNICODE_ISSPACE`): the six ASCII whitespace characters,
the separators U+001C-U+001F, NEL U+0085, NO-BREAK SPACE U+00A0, OGHAM
SPACE MARK U+1680, the typographic spaces U+2000-U+200A, LINE SEPARATOR
U+2028, PARAGRAPH SEPARATOR U+2029, NARROW NO-BREAK SPACE U+202F, MEDIUM
MATHEMATICAL SPACE U+205F and IDEOGRAPHIC SPACE U+3000. -/
def isPySpace (c : Char) : Bool :=
  c = ' ' || c = '\t' || c = '\n' || c = '\x0d' || c = '\x0b' || c = '\x0c' ||
    (0x1c ≤ c.toNat && c.toNat ≤ 0x1f) || c.toNat = 0x85 || c.toNat = 0xa0 ||
    c.toNat = 0x1680 || (0x2000 ≤ c.toNat && c.toNat ≤ 0x200a) ||
    c.toNat = 0x2028 || c.toNat = 0x2029 || c.toNat = 0x202f ||
    c.toNat = 0x205f || c.toNat = 0x3000

/-- Python `line.strip()`: remove leading and trailing whitespace. -/
def pyStrip (s : PyStr) : PyStr :=
  ((s.dropWhile isPySpace).reverse.dropWhile isPySpace).reverse

/-- Split a string at every occurrence of the delimiter `'|'`
(Python `s.split("|")` with no maxsplit).  Always returns at least one
part. -/
def splitAllPipe : PyStr → List PyStr
  | [] => [[]]
  | c :: cs =>
    if c = '|' then [] :: splitAllPipe cs
    else
      match splitAllPipe cs with
      | [] => [[c]]
      | p :: ps => (c :: p) :: ps

/-- Re-join parts with the delimiter `'|'` (used to rebuild the third
part of a capped split). -/
def joinPipe : List PyStr → PyStr
  | [] => []
  | [p] => p
  | p :: ps => p ++ '|' :: joinPipe ps

/-- Python `line.split("|", 2)` (line 52 of `streamlit_app.py`): split at
the first two delimiters only, so the result has at most 3 parts and the
third part keeps any further delimiters. -/
def pySplitPipe2 (s : PyStr) : List PyStr :=
  match splitAllPipe s with
  | a :: b :: c :: rest => [a, b, joinPipe (c :: rest)]
  | parts => parts

/-- Iterating a Python text-mode file (`for line in f`, line 51) yields
its lines; universal-newline mode translates `\r\n` and lone `\x0d` into
line breaks.  Terminators are dropped here, which is harmless because
line 52 strips each line before splitting. -/
def fileLines : PyStr → List PyStr
  | [] => []
  | '\x0d' :: '\n' :: rest => [] :: fileLines rest
  | '\x0d' :: rest => [] :: fileLines rest
  | '\n' :: rest => [] :: fileLines rest
  | c :: cs =>
    match fileLines cs with
    | [] => [[c]]
    | l :: ls => (c :: l) :: ls

/-- `save_to_file(message, sentiment)` (lines 38-42): append the line
`timestamp|sentiment|message` plus a newline to the backing file,
creating it when absent.  The formatted `datetime.now()` string is the
`timestamp` argument. -/
def save_to_file (message sentiment timestamp : PyStr) (store : Option PyStr) : Option PyStr :=
  some (store.getD [] ++ (timestamp ++ '|' :: (sentiment ++ '|' :: message)) ++ ['\n'])

/-- The body of the loop at lines 51-58: strip the line, split on the
delimiter capped at 3 parts, and keep the row only when there are exactly
3 parts. -/
def parseLine (line : PyStr) : Option SentimentRecord :=
  match pySplitPipe2 (pyStrip line) with
  | [t, s, m] => some ⟨t, s, m⟩
  | _ => none

/-- `load_data()` (lines 44-59): empty table when the file does not
exist, otherwise one row per well-formed line, in file order. -/
def load_data : Option PyStr → List SentimentRecord
  | none => []
  | some content => (fileLines content).filterMap parseLine

/-- `os.remove` raises `FileNotFoundError` on a missing file; the error
branch models the uncaught exception. -/
def os_remove : Option PyStr → Except PyStr (Option PyStr)
  | none => Except.error ("FileNotFoundError".toList)
  | some _ => Except.ok none

/-- `clear_history()` (lines 61-64): delete the backing file only when it
exists (`if os.path.exists(DATA_FILE): os.remove(DATA_FILE)`). -/
def clear_history (store : Option PyStr) : Except PyStr (Option PyStr) :=
  if store.isSome then os_remove store else Except.ok store

/-- Whether a CSV field must be quoted (`pandas.DataFrame.to_csv` with the
default minimal quoting: fields containing the separator, the quote
character or a line break are quoted). -/
def csvQuoteNeeded (s : PyStr) : Bool :=
  s.any (fun c => c = ',' || c = '"' || c = '\n' || c = '\x0d')

/-- Double every quote character inside a quoted CSV field. -/
def csvEscape (s : PyStr) : PyStr :=
  s.flatMap (fun c => if c = '"' then ['"', '"'] else [c])

/-- Render one CSV field with minimal quoting. -/
def csvField (s : PyStr) : PyStr :=
  if csvQuoteNeeded s then '"' :: (csvEscape s ++ ['"']) else s

/-- Render one dataframe row as a CSV line. -/
def csvRow (r : SentimentRecord) : PyStr :=
  csvField r.timestamp ++ ',' :: (csvField r.sentiment ++ ',' :: (csvField r.message ++ ['\n']))

/-- The CSV header row written by `to_csv(index=False)` for the
three-column dataframe. -/
def csvHeader : PyStr := "timestamp,sentiment,message\n".toList

/-- `df.to_csv(index=False)` on a dataframe that has the three columns:
header row followed by one line per row, in dataframe order. -/
def to_csv (recs : List SentimentRecord) : PyStr :=
  csvHeader ++ (recs.map csvRow).flatten

/-- `export_data()` (lines 66-69): `load_data().to_csv(index=False)`.
When the file is missing, `load_data` returns a dataframe constructed
with the three column names, so the CSV is just the header; when the file
exists but no line parses, `pd.DataFrame([])` has no columns at all and
`to_csv` emits a single newline. -/
def export_data (store : Option PyStr) : PyStr :=
  match store with
  | none => csvHeader
  | some content =>
    if (load_data (some content)).isEmpty then ['\n']
    else to_csv (load_data (some content))

/-- `df.tail(n).iloc[::-1]` (line 123): the last `n` rows of the table,
reversed so the newest comes first. -/
def recent_df (recs : List SentimentRecord) (n : Nat) : List SentimentRecord :=
  (recs.drop (recs.length - n)).reverse

/-- Keep the elements not yet seen, in order of first appearance. -/
def uniqueAux : List PyStr → List PyStr → List PyStr
  | [], _ => []
  | x :: xs, seen => if x ∈ seen then uniqueAux xs seen else x :: uniqueAux xs (x :: seen)

/-- Keep the first occurrence of every element, in order of first
appearance (the distinct keys of `pandas.Series.value_counts`). -/
def uniqueInOrder (l : List PyStr) : List PyStr := uniqueAux l []

/-- `pandas.Series.value_counts` as a mapping: each distinct observed
value paired with its number of occurrences.  (pandas additionally orders
the pairs by descending count; only the mapping itself matters to the
properties below, so the pair order here is first appearance.) -/
def value_counts (xs : List PyStr) : List (PyStr × Nat) :=
  (uniqueInOrder xs).map (fun v => (v, xs.count v))

/-- `df['sentiment'].value_counts()` (line 160). -/
def sentiment_counts (recs : List SentimentRecord) : List (PyStr × Nat) :=
  value_counts (recs.map (fun r => r.sentiment))

/-- The hour bucket of a `YYYY-MM-DD HH:MM:SS` timestamp: its first 13
characters (`YYYY-MM-DD HH`). -/
def hourBucket (ts : PyStr) : PyStr := ts.take 13

/-- The hourly series of line 192
(`df.set_index('timestamp').resample('H')['sentiment'].count()`):
records grouped by hour bucket with their counts.  The reference
resampling also inserts zero-count buckets between the observed minimum
and maximum hours; the spec (section 9) explicitly leaves gap-filling
open, and no property below depends on it, so the sparse grouping is
modelled. -/
def hourly_time_series (recs : List SentimentRecord) : List (PyStr × Nat) :=
  value_counts (recs.map (fun r => hourBucket r.timestamp))

/-- The `SENTIMENT_EMOJIS` dict (lines 15-19).  Python dict indexing
raises `KeyError` on a missing key, modelled by `none`. -/
def SENTIMENT_EMOJIS (key : PyStr) : Option (List PyStr) :=
  if key = "positive".toList then some ["😊".toList, "👍".toList, "✨".toList]
  else if key = "negative".toList then some ["😞".toList, "👎".toList, "❌".toList]
  else if key = "neutral".toList then some ["😐".toList, "⚖️".toList, "🤔".toList]
  else none

/-- Python `" ".join(parts)`. -/
def joinSpace : List PyStr → PyStr
  | [] => []
  | [p] => p
  | p :: ps => p ++ ' ' :: joinSpace ps

/-- `" ".join(SENTIMENT_EMOJIS[sentiment])` (lines 107 and 125); `none`
models the `KeyError` escaping to the caller. -/
def render_emojis (sentiment : PyStr) : Option PyStr :=
  (SENTIMENT_EMOJIS sentiment).map joinSpace

/-- An error box shown by `st.error` in `analyze_sentiment`. -/
inductive Report where
  /-- Line 32: `st.error` with the HTTP status code. -/
  | apiError (status : Nat)
  /-- Line 35: `st.error` with the exception message. -/
  | genError (msg : PyStr)
deriving DecidableEq

/-- Outcome of the `requests.post` call at lines 24-28 together with the
`response.json()['result']` access at line 30: either a response arrived
(with its status code, and either the parsed `result` string or the
message of the exception that `.json()['result']` would raise), or the
transport raised. -/
inductive HttpOutcome where
  /-- A response with the given status; `result` is what evaluating
  `response.json()['result']` yields or raises. -/
  | response (status : Nat) (result : Except PyStr PyStr)
  /-- The request itself raised (connection error, etc.). -/
  | exn (msg : PyStr)

/-- `analyze_sentiment(message)` (lines 21-36): returns the label and the
error box, if any.  A 200 response returns the parsed `result`; a parse
failure at line 30 is caught by the `except` at line 34; a non-200 status
reports the code at line 32; a transport exception reports its message. -/
def analyze_sentiment (outcome : HttpOutcome) : Option PyStr × Option Report :=
  match outcome with
  | HttpOutcome.response status result =>
    if status = 200 then
      match result with
      | Except.ok r => (some r, none)
      | Except.error e => (none, some (Report.genError e))
    else (none, some (Report.apiError status))
  | HttpOutcome.exn e => (none, some (Report.genError e))

/-- The `analyze_btn` handler (lines 98-104): runs only when the button
was pressed and the message is truthy (non-empty); saves a record only
when the returned sentiment is truthy (`if sentiment:`).  Returns the new
store, the error box, and whether the classification call was made. -/
def analyze_btn_handler (analyzeBtn : Bool) (message : PyStr) (outcome : HttpOutcome)
    (timestamp : PyStr) (store : Option PyStr) : Option PyStr × Option Report × Bool :=
  if analyzeBtn && !message.isEmpty then
    match analyze_sentiment outcome with
    | (some s, report) =>
      if !s.isEmpty then (save_to_file message s timestamp store, report, true)
      else (store, report, true)
    | (none, report) => (store, report, true)
  else (store, none, false)

/-- Appending a batch of records through `save_to_file`, oldest first. -/
def appendRecords (recs : List SentimentRecord) (store : Option PyStr) : Option PyStr :=
  recs.foldl (fun st r => save_to_file r.message r.sentiment r.timestamp st) store

/-- The line `save_to_file` writes for a record, without its newline. -/
def recLine (r : SentimentRecord) : PyStr :=
  r.timestamp ++ '|' :: (r.sentiment ++ '|' :: r.message)

/-- The file content produced by appending a batch of records. -/
def serialize (recs : List SentimentRecord) : PyStr :=
  (recs.map (fun r => recLine r ++ ['\n'])).flatten

/-- No line-break characters (a field containing one would span lines). -/
def lineSafe (s : PyStr) : Bool :=
  s.all (fun c => !(c = '\n' || c = '\x0d'))

/-- No delimiter characters. -/
def pipeFree (s : PyStr) : Bool :=
  s.all (fun c => !(c = '|'))

/-- First character, if any, is not Python whitespace. -/
def headNotSpace : PyStr → Bool
  | [] => true
  | c :: _ => !isPySpace c

/-- A record that survives the write/strip/split round trip: no field
contains a line break, timestamp and label contain no delimiter, the
timestamp does not start with whitespace and the message does not end
with whitespace (otherwise `strip()` at line 52 would alter it). -/
def record_wf (r : SentimentRecord) : Bool :=
  lineSafe r.timestamp && lineSafe r.sentiment && lineSafe r.message &&
    pipeFree r.timestamp && pipeFree r.sentiment &&
    headNotSpace r.timestamp && headNotSpace r.message.reverse

/-! ### Concrete sample data used by witnesses -/

/-- A well-formed record with a plain message. -/
def wRec1 : SentimentRecord :=
  ⟨"2024-01-01 10:00:00".toList, "positive".toList, "good day".toList⟩

/-- A well-formed record whose message contains the delimiter. -/
def wRec2 : SentimentRecord :=
  ⟨"2024-01-01 11:30:05".toList, "neutral".toList, "a|b|c pipes kept".toList⟩

/-- Six well-formed records, enough to exercise the last-5 display. -/
def wRecs6 : List SentimentRecord :=
  [⟨"2024-01-01 10:00:00".toList, "positive".toList, "m1".toList⟩,
   ⟨"2024-01-01 10:10:00".toList, "negative".toList, "m2".toList⟩,
   ⟨"2024-01-01 10:20:00".toList, "neutral".toList, "m3".toList⟩,
   ⟨"2024-01-01 10:30:00".toList, "positive".toList, "m4|x".toList⟩,
   ⟨"2024-01-01 10:40:00".toList, "negative".toList, "m5".toList⟩,
   ⟨"2024-01-01 10:50:00".toList, "positive".toList, "m6".toList⟩]

/-- A table whose label multiset is 3 positive, 1 negative, 2 neutral. -/
def sample312 : List SentimentRecord :=
  [⟨"t1".toList, "positive".toList, "m1".toList⟩,
   ⟨"t2".toList, "negative".toList, "m2".toList⟩,
   ⟨"t3".toList, "neutral".toList, "m3".toList⟩,
   ⟨"t4".toList, "positive".toList, "m4".toList⟩,
   ⟨"t5".toList, "neutral".toList, "m5".toList⟩,
   ⟨"t6".toList, "positive".toList, "m6".toList⟩]

/-! ### Splitting and stripping lemmas -/

lemma pipeFree_cons {c : Char} {cs : PyStr} (h : pipeFree (c :: cs) = true) :
    c ≠ '|' ∧ pipeFree cs = true := by
  simp only [pipeFree, List.all_cons, Bool.and_eq_true, Bool.not_eq_true',
    decide_eq_false_iff_not] at h
  exact ⟨h.1, h.2⟩

lemma lineSafe_cons {c : Char} {cs : PyStr} (h : lineSafe (c :: cs) = true) :
    c ≠ '\n' ∧ c ≠ '\x0d' ∧ lineSafe cs = true := by
  simp only [lineSafe, List.all_cons, Bool.and_eq_true, Bool.not_eq_true',
    Bool.or_eq_false_iff, decide_eq_false_iff_not] at h
  exact ⟨h.1.1, h.1.2, h.2⟩

lemma splitAllPipe_ne_nil (s : PyStr) : splitAllPipe s ≠ [] := by
  cases s with
  | nil => simp [splitAllPipe]
  | cons c cs =>
    rw [splitAllPipe]
    by_cases h : c = '|'
    · simp [h]
    · simp only [if_neg h]
      cases splitAllPipe cs <;> simp

lemma splitAllPipe_append_pipe (a b : PyStr) (ha : pipeFree a = true) :
    splitAllPipe (a ++ '|' :: b) = a :: splitAllPipe b := by
  induction a with
  | nil => simp [splitAllPipe]
  | cons c cs ih =>
    obtain ⟨hc, hcs⟩ := pipeFree_cons ha
    rw [List.cons_append, splitAllPipe, if_neg hc, ih hcs]

lemma splitAllPipe_pipeFree (s : PyStr) (h : pipeFree s = true) : splitAllPipe s = [s] := by
  induction s with
  | nil => rfl
  | cons c cs ih =>
    obtain ⟨hc, hcs⟩ := pipeFree_cons h
    rw [splitAllPipe, if_neg hc, ih hcs]

lemma joinPipe_splitAllPipe (s : PyStr) : joinPipe (splitAllPipe s) = s := by
  induction s with
  | nil => rfl
  | cons c cs ih =>
    rw [splitAllPipe]
    by_cases hc : c = '|'
    · subst hc
      rw [if_pos rfl]
      cases h : splitAllPipe cs with
      | nil => exact absurd h (splitAllPipe_ne_nil cs)
      | cons p ps =>
        rw [h] at ih
        simpa [joinPipe] using ih
    · rw [if_neg hc]
      cases h : splitAllPipe cs with
      | nil => exact absurd h (splitAllPipe_ne_nil cs)
      | cons p ps =>
        rw [h] at ih
        cases ps with
        | nil => simpa [joinPipe] using congrArg (c :: ·) ih
        | cons q qs => simpa [joinPipe] using congrArg (c :: ·) ih

lemma pySplitPipe2_parts (ts lbl msg : PyStr) (hts : pipeFree ts = true)
    (hlbl : pipeFree lbl = true) :
    pySplitPipe2 (ts ++ '|' :: (lbl ++ '|' :: msg)) = [ts, lbl, msg] := by
  unfold pySplitPipe2
  rw [splitAllPipe_append_pipe _ _ hts, splitAllPipe_append_pipe _ _ hlbl]
  cases h : splitAllPipe msg with
  | nil => exact absurd h (splitAllPipe_ne_nil msg)
  | cons p ps =>
    have hj : joinPipe (p :: ps) = msg := by
      rw [← h]; exact joinPipe_splitAllPipe msg
    simp [hj]

lemma dropWhile_isPySpace_eq_self (l : PyStr) (h : headNotSpace l = true) :
    l.dropWhile isPySpace = l := by
  cases l with
  | nil => rfl
  | cons c cs =>
    simp only [headNotSpace, Bool.not_eq_true'] at h
    exact List.dropWhile_cons_of_neg (by simp [h])

lemma pyStrip_eq_self (l : PyStr) (h1 : headNotSpace l = true)
    (h2 : headNotSpace l.reverse = true) : pyStrip l = l := by
  unfold pyStrip
  rw [dropWhile_isPySpace_eq_self l h1, dropWhile_isPySpace_eq_self l.reverse h2,
    List.reverse_reverse]

lemma headNotSpace_append_cons (x y : PyStr) (c : Char) (hx : headNotSpace x = true)
    (hc : isPySpace c = false) : headNotSpace (x ++ c :: y) = true := by
  cases x <;> simp_all [headNotSpace]

lemma headNotSpace_reverse_append_cons (x y : PyStr) (c : Char)
    (hy : headNotSpace y.reverse = true) (hc : isPySpace c = false) :
    headNotSpace (x ++ c :: y).reverse = true := by
  rw [List.reverse_append, List.reverse_cons, List.append_assoc, List.singleton_append]
  exact headNotSpace_append_cons _ _ _ hy hc

lemma record_wf_fields {r : SentimentRecord} (h : record_wf r = true) :
    lineSafe r.timestamp = true ∧ lineSafe r.sentiment = true ∧ lineSafe r.message = true ∧
      pipeFree r.timestamp = true ∧ pipeFree r.sentiment = true ∧
      headNotSpace r.timestamp = true ∧ headNotSpace r.message.reverse = true := by
  simp only [record_wf, Bool.and_eq_true] at h
  exact ⟨h.1.1.1.1.1.1, h.1.1.1.1.1.2, h.1.1.1.1.2, h.1.1.1.2, h.1.1.2, h.1.2, h.2⟩

lemma parseLine_recLine (r : SentimentRecord) (h : record_wf r = true) :
    parseLine (recLine r) = some r := by
  obtain ⟨hts, hsent, hmsg, hpts, hpsent, hhts, hhmsg⟩ := record_wf_fields h
  have hpipe : isPySpace '|' = false := by decide
  have hhead : headNotSpace (recLine r) = true :=
    headNotSpace_append_cons _ _ _ hhts hpipe
  have hlast : headNotSpace (recLine r).reverse = true := by
    unfold recLine
    exact headNotSpace_reverse_append_cons _ _ _
      (headNotSpace_reverse_append_cons _ _ _ hhmsg hpipe) hpipe
  unfold parseLine
  rw [pyStrip_eq_self _ hhead hlast]
  rw [recLine, pySplitPipe2_parts _ _ _ hpts hpsent]

lemma mem_pyStrip {c : Char} {l : PyStr} (h : c ∈ pyStrip l) : c ∈ l := by
  unfold pyStrip at h
  rw [List.mem_reverse] at h
  have h2 : c ∈ (l.dropWhile isPySpace).reverse := (List.dropWhile_sublist _).mem h
  rw [List.mem_reverse] at h2
  exact (List.dropWhile_sublist _).mem h2

lemma parseLine_pipeFree_none (junk : PyStr) (h : pipeFree junk = true) :
    parseLine junk = none := by
  have hsub : pipeFree (pyStrip junk) = true := by
    simp only [pipeFree, List.all_eq_true, Bool.not_eq_true', decide_eq_false_iff_not] at h ⊢
    exact fun c hc => h c (mem_pyStrip hc)
  unfold parseLine
  rw [pySplitPipe2, splitAllPipe_pipeFree _ hsub]

/-! ### File-shape lemmas -/

lemma fileLines_cons_other {c : Char} (cs : PyStr) (h1 : c ≠ '\n') (h2 : c ≠ '\x0d') :
    fileLines (c :: cs) = match fileLines cs with
      | [] => [[c]]
      | l :: ls => (c :: l) :: ls := by
  rw [fileLines.eq_def]
  split
  all_goals simp_all

lemma fileLines_line_append (xs rest : PyStr) (h : lineSafe xs = true) :
    fileLines (xs ++ '\n' :: rest) = xs :: fileLines rest := by
  induction xs with
  | nil => rfl
  | cons c cs ih =>
    obtain ⟨hc1, hc2, hcs⟩ := lineSafe_cons h
    rw [List.cons_append, fileLines_cons_other _ hc1 hc2, ih hcs]

lemma recLine_lineSafe (r : SentimentRecord) (h : record_wf r = true) :
    lineSafe (recLine r) = true := by
  obtain ⟨hts, hsent, hmsg, -, -, -, -⟩ := record_wf_fields h
  simp only [lineSafe, List.all_eq_true] at hts hsent hmsg ⊢
  intro c hc
  simp only [recLine, List.mem_append, List.mem_cons] at hc
  rcases hc with h1 | h2 | h3 | h4
  · exact hts c h1
  · subst h2; decide
  · exact hsent c h3
  · rcases h4 with h5 | h6
    · subst h5; decide
    · exact hmsg c h6

lemma serialize_cons (r : SentimentRecord) (recs : List SentimentRecord) :
    serialize (r :: recs) = recLine r ++ '\n' :: serialize recs := by
  simp [serialize]

lemma fileLines_serialize (recs : List SentimentRecord)
    (h : ∀ r ∈ recs, record_wf r = true) :
    fileLines (serialize recs) = recs.map recLine := by
  induction recs with
  | nil => rfl
  | cons r rs ih =>
    have hr : record_wf r = true := h r (List.mem_cons_self r rs)
    have hrs : ∀ x ∈ rs, record_wf x = true := fun x hx => h x (List.mem_cons_of_mem r hx)
    rw [serialize_cons, fileLines_line_append _ _ (recLine_lineSafe r hr), ih hrs,
      List.map_cons]

lemma filterMap_parseLine_map (recs : List SentimentRecord)
    (h : ∀ r ∈ recs, record_wf r = true) :
    (recs.map recLine).filterMap parseLine = recs := by
  induction recs with
  | nil => rfl
  | cons r rs ih =>
    have hr : record_wf r = true := h r (List.mem_cons_self r rs)
    have hrs : ∀ x ∈ rs, record_wf x = true := fun x hx => h x (List.mem_cons_of_mem r hx)
    rw [List.map_cons, List.filterMap_cons, parseLine_recLine r hr, ih hrs]

lemma load_data_some (content : PyStr) :
    load_data (some content) = (fileLines content).filterMap parseLine := rfl

lemma load_serialize (recs : List SentimentRecord)
    (h : ∀ r ∈ recs, record_wf r = true) :
    load_data (some (serialize recs)) = recs := by
  rw [load_data_some, fileLines_serialize recs h, filterMap_parseLine_map recs h]

lemma appendRecords_some (recs : List SentimentRecord) (c : PyStr) :
    appendRecords recs (some c) = some (c ++ serialize recs) := by
  induction recs generalizing c with
  | nil => simp [appendRecords, serialize]
  | cons r rs ih =>
    show appendRecords rs (save_to_file r.message r.sentiment r.timestamp (some c)) = _
    rw [save_to_file, Option.getD_some, ih, serialize_cons]
    simp [recLine, List.append_assoc]

lemma appendRecords_cons_none (r : SentimentRecord) (rs : List SentimentRecord) :
    appendRecords (r :: rs) none = some (serialize (r :: rs)) := by
  show appendRecords rs (save_to_file r.message r.sentiment r.timestamp none) = _
  rw [save_to_file, Option.getD_none, List.nil_append, appendRecords_some, serialize_cons]
  simp [recLine, List.append_assoc]

lemma load_appendRecords (recs : List SentimentRecord)
    (h : ∀ r ∈ recs, record_wf r = true) :
    load_data (appendRecords recs none) = recs := by
  cases recs with
  | nil => rfl
  | cons r rs =>
    rw [appendRecords_cons_none, load_serialize _ h]

/-! ### Aggregation lemmas -/

lemma mem_uniqueAux (l : List PyStr) :
    ∀ (seen : List PyStr) (v : PyStr), v ∈ uniqueAux l seen ↔ (v ∈ l ∧ v ∉ seen) := by
  induction l with
  | nil => intro seen v; simp [uniqueAux]
  | cons x xs ih =>
    intro seen v
    rw [uniqueAux]
    by_cases hx : x ∈ seen
    · rw [if_pos hx, ih seen v, List.mem_cons]
      constructor
      · rintro ⟨hv, hns⟩; exact ⟨Or.inr hv, hns⟩
      · rintro ⟨hv | hv, hns⟩
        · subst hv; exact absurd hx hns
        · exact ⟨hv, hns⟩
    · rw [if_neg hx, List.mem_cons, ih (x :: seen) v, List.mem_cons, List.mem_cons]
      by_cases hvx : v = x
      · subst hvx; simp [hx]
      · simp [hvx]

lemma mem_uniqueInOrder (l : List PyStr) (v : PyStr) : v ∈ uniqueInOrder l ↔ v ∈ l := by
  rw [uniqueInOrder, mem_uniqueAux]
  simp

lemma mem_value_counts (xs : List PyStr) (lbl : PyStr) (n : Nat) :
    (lbl, n) ∈ value_counts xs ↔ (xs.count lbl = n ∧ n ≠ 0) := by
  unfold value_counts
  rw [List.mem_map]
  constructor
  · rintro ⟨v, hv, heq⟩
    rw [Prod.mk.injEq] at heq
    obtain ⟨hv1, hv2⟩ := heq
    subst hv1
    refine ⟨hv2, ?_⟩
    have hmem : v ∈ xs := (mem_uniqueInOrder xs v).mp hv
    have hpos : 0 < xs.count v := List.count_pos_iff.mpr hmem
    omega
  · rintro ⟨hcnt, hn⟩
    have hmem : lbl ∈ xs := List.count_pos_iff.mp (by omega)
    exact ⟨lbl, (mem_uniqueInOrder xs lbl).mpr hmem, by rw [hcnt]⟩

/-! ### Handler lemma -/

lemma handler_store_of_none (message : PyStr) (outcome : HttpOutcome) (ts : PyStr)
    (store : Option PyStr) (h : (analyze_sentiment outcome).1 = none) :
    (analyze_btn_handler true message outcome ts store).1 = store := by
  unfold analyze_btn_handler
  by_cases hm : message.isEmpty
  · simp [hm]
  · rcases hh : analyze_sentiment outcome with ⟨s, rep⟩
    rw [hh] at h
    simp only at h
    subst h
    simp [hm, hh]

lemma export_data_some (content : PyStr) :
    export_data (some content) =
      if (load_data (some content)).isEmpty then ['\n']
      else to_csv (load_data (some content)) := rfl

/-! ### Claim theorems -/

/-- C1, counterexample: the round trip does *not* hold for arbitrary text.
The known-label record with text `"hi "` (trailing space) is altered by
`line.strip()` on load: the stored triple comes back with text `"hi"`. -/
theorem c1_roundtrip_counterexample :
    load_data (save_to_file ("hi ".toList) ("positive".toList)
        ("2024-01-01 10:00:00".toList) none) ≠
      [⟨"2024-01-01 10:00:00".toList, "positive".toList, "hi ".toList⟩] := by
  decide

/-- C1 (amended): for every record whose label is one of the three known
labels and whose text contains no line break and does not end in
whitespace (text containing the delimiter remains arbitrary), `append`
followed by `loadAll` reproduces the exact `(timestamp, label, text)`
triple at the corresponding (here: last) position of the returned
sequence.  `record_wf` states exactly the surviving conditions: fields
free of line breaks, timestamp and label free of the delimiter,
timestamp not starting and text not ending in whitespace — all true of
`strftime`-generated timestamps and the three known labels. -/
theorem c1_append_load_roundtrip (prev : List SentimentRecord) (r : SentimentRecord)
    (hprev : ∀ p ∈ prev, record_wf p = true) (hr : record_wf r = true) :
    load_data (appendRecords (prev ++ [r]) none) = prev ++ [r] := by
  apply load_appendRecords
  intro x hx
  rcases List.mem_append.mp hx with h | h
  · exact hprev x h
  · rw [List.mem_singleton] at h; subst h; exact hr

/-- C1 witness: the amended round trip at two concrete records, the
second with delimiters inside its text. -/
theorem c1_append_load_roundtrip_witness :
    record_wf wRec1 = true ∧ record_wf wRec2 = true ∧
      load_data (appendRecords ([wRec1] ++ [wRec2]) none) = [wRec1] ++ [wRec2] :=
  ⟨by decide, by decide, c1_append_load_roundtrip [wRec1] wRec2 (by decide) (by decide)⟩

/-- C2, counterexample: the CSV export of a two-record store renders the
records oldest-first (append order), not newest-first as claimed. -/
theorem c2_export_counterexample :
    export_data (save_to_file ("m2".toList) ("negative".toList) ("t2".toList)
        (save_to_file ("m1".toList) ("positive".toList) ("t1".toList) none)) =
      ("timestamp,sentiment,message\nt1,positive,m1\nt2,negative,m2\n").toList ∧
    export_data (save_to_file ("m2".toList) ("negative".toList) ("t2".toList)
        (save_to_file ("m1".toList) ("positive".toList) ("t1".toList) none)) ≠
      ("timestamp,sentiment,message\nt2,negative,m2\nt1,positive,m1\n").toList :=
  ⟨by decide, by decide⟩

/-- C2 (amended): the CSV export renders the full table with header row
`timestamp,sentiment,message` and one row per stored record, ordered
oldest-first (append order).  Only the dashboard's data-table view
reverses to newest-first; `export_data` does not. -/
theorem c2_export_append_order (recs : List SentimentRecord)
    (h : ∀ r ∈ recs, record_wf r = true) :
    export_data (appendRecords recs none) = csvHeader ++ (recs.map csvRow).flatten := by
  cases recs with
  | nil => simp [appendRecords, export_data]
  | cons r rs =>
    rw [appendRecords_cons_none, export_data_some, load_serialize _ h]
    simp [to_csv]

/-- C2 witness: the amended export shape at two concrete records. -/
theorem c2_export_append_order_witness :
    record_wf wRec1 = true ∧ record_wf wRec2 = true ∧
      export_data (appendRecords [wRec1, wRec2] none) =
        csvHeader ++ ([wRec1, wRec2].map csvRow).flatten :=
  ⟨by decide, by decide, c2_export_append_order [wRec1, wRec2] (by decide)⟩

/-- C3: for every store content built by appends of well-formed records,
`loadAll` returns the records in append order (oldest first), and the
recent-messages view (`df.tail(5).iloc[::-1]`) returns the 5 most
recently appended records newest-first — all of them, newest-first, when
fewer than 5 exist (`List.take` truncates at the list's length). -/
theorem c3_load_order_and_recent (recs : List SentimentRecord)
    (h : ∀ r ∈ recs, record_wf r = true) :
    load_data (appendRecords recs none) = recs ∧
    recent_df (load_data (appendRecords recs none)) 5 = recs.reverse.take 5 := by
  have hl := load_appendRecords recs h
  refine ⟨hl, ?_⟩
  rw [hl]
  unfold recent_df
  rw [List.take_reverse]

/-- C3 witness: six concrete records; the display keeps the last five,
newest first. -/
theorem c3_load_order_and_recent_witness :
    wRecs6.all record_wf = true ∧
      (load_data (appendRecords wRecs6 none) = wRecs6 ∧
        recent_df (load_data (appendRecords wRecs6 none)) 5 = wRecs6.reverse.take 5) :=
  ⟨by decide, c3_load_order_and_recent wRecs6 (by decide)⟩

/-- C4: for every input text, whenever the classification call returns a
non-200 status, or evaluating `response.json()['result']` raises, or the
transport raises, `analyze_sentiment` reports the error (status code,
resp. exception message) and returns null — and in that case the button
handler leaves the store unchanged (no record written). -/
theorem c4_classify_error_no_write (message ts : PyStr) (store : Option PyStr) :
    (∀ (status : Nat) (result : Except PyStr PyStr), status ≠ 200 →
      analyze_sentiment (HttpOutcome.response status result) =
          (none, some (Report.apiError status)) ∧
        (analyze_btn_handler true message (HttpOutcome.response status result)
            ts store).1 = store) ∧
    (∀ emsg : PyStr,
      analyze_sentiment (HttpOutcome.response 200 (Except.error emsg)) =
          (none, some (Report.genError emsg)) ∧
        (analyze_btn_handler true message (HttpOutcome.response 200 (Except.error emsg))
            ts store).1 = store) ∧
    (∀ emsg : PyStr,
      analyze_sentiment (HttpOutcome.exn emsg) = (none, some (Report.genError emsg)) ∧
        (analyze_btn_handler true message (HttpOutcome.exn emsg) ts store).1 = store) := by
  refine ⟨fun status result hst => ⟨?_, ?_⟩, fun emsg => ⟨rfl, ?_⟩, fun emsg => ⟨rfl, ?_⟩⟩
  · simp [analyze_sentiment, hst]
  · exact handler_store_of_none _ _ _ _ (by simp [analyze_sentiment, hst])
  · exact handler_store_of_none _ _ _ _ rfl
  · exact handler_store_of_none _ _ _ _ rfl

/-- C4 witness: a 500 response on a nonempty message and a nonempty
store: the status is reported, null is returned, and the store is
untouched. -/
theorem c4_classify_error_no_write_witness :
    analyze_sentiment (HttpOutcome.response 500 (Except.ok ("positive".toList))) =
        (none, some (Report.apiError 500)) ∧
      (analyze_btn_handler true ("hello".toList)
          (HttpOutcome.response 500 (Except.ok ("positive".toList)))
          ("2024-01-01 10:00:00".toList) (some ("old|content\n".toList))).1 =
        some ("old|content\n".toList) :=
  (c4_classify_error_no_write ("hello".toList) ("2024-01-01 10:00:00".toList)
      (some ("old|content\n".toList))).1 500 (Except.ok ("positive".toList)) (by decide)

/-- C5: a log file holding one well-formed line and one delimiter-free
line yields exactly the well-formed record, whichever order the two
lines appear in; the malformed line is silently dropped (`parseLine`
returns `none`, no error value exists in the result). -/
theorem c5_malformed_line_dropped (t s m junk : PyStr)
    (hwf : record_wf ⟨t, s, m⟩ = true) (hsafe : lineSafe junk = true)
    (hnopipe : pipeFree junk = true) :
    load_data (some (recLine ⟨t, s, m⟩ ++ '\n' :: (junk ++ ['\n']))) = [⟨t, s, m⟩] ∧
    load_data (some (junk ++ '\n' :: (recLine ⟨t, s, m⟩ ++ ['\n']))) = [⟨t, s, m⟩] := by
  have hrl : lineSafe (recLine ⟨t, s, m⟩) = true := recLine_lineSafe _ hwf
  have hparse : parseLine (recLine ⟨t, s, m⟩) = some ⟨t, s, m⟩ := parseLine_recLine _ hwf
  have hjunk : parseLine junk = none := parseLine_pipeFree_none junk hnopipe
  have hfj : fileLines (junk ++ ['\n']) = [junk] := by
    simpa using fileLines_line_append junk [] hsafe
  have hfr : fileLines (recLine ⟨t, s, m⟩ ++ ['\n']) = [recLine ⟨t, s, m⟩] := by
    simpa using fileLines_line_append _ [] hrl
  constructor
  · rw [load_data_some, fileLines_line_append _ _ hrl, hfj]
    simp [List.filterMap_cons, hparse, hjunk]
  · rw [load_data_some, fileLines_line_append _ _ hsafe, hfr]
    simp [List.filterMap_cons, hparse, hjunk]

/-- C5 witness: a concrete well-formed line next to a concrete
delimiter-free line, in both orders. -/
theorem c5_malformed_line_dropped_witness :
    record_wf ⟨"2024-01-01 10:00:00".toList, "positive".toList, "ok".toList⟩ = true ∧
    lineSafe ("this line has no delimiter".toList) = true ∧
    pipeFree ("this line has no delimiter".toList) = true ∧
    (load_data (some (recLine ⟨"2024-01-01 10:00:00".toList, "positive".toList, "ok".toList⟩ ++
          '\n' :: ("this line has no delimiter".toList ++ ['\n']))) =
        [⟨"2024-01-01 10:00:00".toList, "positive".toList, "ok".toList⟩] ∧
      load_data (some ("this line has no delimiter".toList ++
          '\n' :: (recLine ⟨"2024-01-01 10:00:00".toList, "positive".toList, "ok".toList⟩ ++ ['\n']))) =
        [⟨"2024-01-01 10:00:00".toList, "positive".toList, "ok".toList⟩]) :=
  ⟨by decide, by decide, by decide,
    c5_malformed_line_dropped _ _ _ _ (by decide) (by decide) (by decide)⟩

/-- C6: `countsByLabel` (the `value_counts` of the sentiment column) maps
each observed label to the exact number of records carrying it — a pair
`(label, n)` occurs in the mapping exactly when `n` is that label's
occurrence count and is nonzero, so zero-count labels are absent — and on
the concrete table with label multiset 3 positive, 1 negative, 2 neutral
it contains exactly those three counts. -/
theorem c6_counts_by_label :
    (∀ (recs : List SentimentRecord) (lbl : PyStr) (n : Nat),
      ((lbl, n) ∈ sentiment_counts recs ↔
        ((recs.map (fun r => r.sentiment)).count lbl = n ∧ n ≠ 0))) ∧
    ("positive".toList, 3) ∈ sentiment_counts sample312 ∧
    ("negative".toList, 1) ∈ sentiment_counts sample312 ∧
    ("neutral".toList, 2) ∈ sentiment_counts sample312 ∧
    (sentiment_counts sample312).length = 3 := by
  refine ⟨fun recs lbl n => ?_, by decide, by decide, by decide, by decide⟩
  exact mem_value_counts _ lbl n

/-- C7: the emoji lookup is a plain dict indexing and raises `KeyError`
(modelled by `none`) on any label outside the three recognized ones, so
rendering a record with an unknown label fails; the three known labels
do succeed. -/
theorem c7_unknown_label_lookup_fails :
    SENTIMENT_EMOJIS ("mixed".toList) = none ∧
    render_emojis ("mixed".toList) = none ∧
    (render_emojis ("positive".toList)).isSome = true ∧
    (render_emojis ("negative".toList)).isSome = true ∧
    (render_emojis ("neutral".toList)).isSome = true := by
  decide

/-- C8: calling `clear` leaves the store empty whatever it held, a second
call is a no-op that succeeds (it does not reach `os.remove`, which would
raise `FileNotFoundError` on a missing file), and the emptied store loads
as the empty sequence. -/
theorem c8_clear_idempotent (store : Option PyStr) :
    clear_history store = Except.ok none ∧
    clear_history none = Except.ok none ∧
    load_data none = [] ∧
    os_remove none = Except.error ("FileNotFoundError".toList) := by
  refine ⟨?_, rfl, rfl, rfl⟩
  cases store
  · rfl
  · rfl

/-- C9: a nonexistent backing file loads as the empty table, and the
aggregations (`countsByLabel`, `hourlyTimeSeries`) of the empty table are
empty. -/
theorem c9_empty_state :
    load_data none = [] ∧ sentiment_counts [] = [] ∧ hourly_time_series [] = [] :=
  ⟨rfl, rfl, rfl⟩

/-- C10: submitting the empty message performs no classification call,
shows no error, and appends no record: the handler returns the store
unchanged with the call flag false, whatever the would-be outcome,
timestamp, and store. -/
theorem c10_empty_message_noop (outcome : HttpOutcome) (ts : PyStr) (store : Option PyStr) :
    analyze_btn_handler true [] outcome ts store = (store, none, false) := rfl

end SentimentAnalyzer
